import Mathlib

/-!
Shallow embedding of `src/akin-nevmo.js` (Akin NevMo backend): the MTN
disbursement client (`sendMoney`, `getTransferStatus`), the in-memory
transaction ledger, and the Express route handlers for
POST /api/donate, POST /api/save, POST /api/withdraw and
GET /api/transaction/:referenceId.

JavaScript request-body values are modelled by the fragment `JsVal`
(undefined, null, booleans, integers, NaN, strings); the coercions the
code exercises (truthiness, relational `<` against a number literal,
template-literal stringification, `String.prototype.replace`) are embedded
explicitly.  The provider (token endpoint, transfer endpoint, status
endpoint) is an oracle passed in as a `Provider`; each operation returns,
besides its result, the updated ledger and a log of the outbound provider
calls it issued.
-/

set_option autoImplicit false

deriving instance DecidableEq for Except

namespace AkinNevmo

/-- Source line 14: the platform's MTN number, to which donations and savings go. -/
def PLATFORM_PHONE : String := "231887716973"

/-- Fragment of JavaScript values that can appear in the JSON request bodies
this server consumes: `undefined`, `null`, booleans, (integer) numbers, `NaN`
and strings. -/
inductive JsVal where
  | vUndefined : JsVal
  | vNull : JsVal
  | vBool : Bool → JsVal
  | vNum : Int → JsVal
  | vNaN : JsVal
  | vStr : String → JsVal
deriving DecidableEq, Repr

/-- JavaScript truthiness: `undefined`, `null`, `false`, `0`, `NaN` and the
empty string are falsy, everything else in the fragment is truthy. -/
def truthy : JsVal → Bool
  | .vUndefined => false
  | .vNull => false
  | .vBool b => b
  | .vNum n => n != 0
  | .vNaN => false
  | .vStr s => s != ""

/-- Whitespace characters `Number()` trims before parsing. -/
def isJsSpace (c : Char) : Bool :=
  c = ' ' || c = '\t' || c = '\n' || c = '\r'

/-- Drop leading and trailing whitespace from a character list. -/
def trimJs (l : List Char) : List Char :=
  ((l.dropWhile isJsSpace).reverse.dropWhile isJsSpace).reverse

/-- Value of a non-empty all-digit character list; `none` on a non-digit. -/
def digitsToNatAux : List Char → Nat → Option Nat
  | [], acc => some acc
  | c :: cs, acc =>
    if c.isDigit then digitsToNatAux cs (acc * 10 + (c.toNat - 48)) else none

/-- Value of an all-digit character list, `none` when empty or non-digit. -/
def digitsToNat? : List Char → Option Nat
  | [] => none
  | c :: cs => digitsToNatAux (c :: cs) 0

/-- JavaScript `Number(string)` on the fragment the handlers exercise:
a trimmed empty string is `0`, an optionally negated digit string is its
integer value, anything else is NaN (`none`).  (Fractional, hexadecimal and
exponent literals are outside the modelled fragment.) -/
def parseJsNumber (s : String) : Option Int :=
  match trimJs s.data with
  | [] => some 0
  | c :: cs =>
    if c = '-' then
      match digitsToNat? cs with
      | some n => some (-(n : Int))
      | none => none
    else
      match digitsToNat? (c :: cs) with
      | some n => some (n : Int)
      | none => none

/-- JavaScript `ToNumber` on the fragment; `none` is NaN. -/
def toNumber : JsVal → Option Int
  | .vUndefined => none
  | .vNull => some 0
  | .vBool b => some (if b then 1 else 0)
  | .vNum n => some n
  | .vNaN => none
  | .vStr s => parseJsNumber s

/-- The JavaScript comparison `v < k` where `k` is a number literal: both
sides are coerced to numbers and any comparison against NaN is false. -/
def jsLt (v : JsVal) (k : Int) : Bool :=
  match toNumber v with
  | some n => n < k
  | none => false

/-- JavaScript stringification as performed by template literals and by
`.toString()` on defined values. -/
def jsToString : JsVal → String
  | .vUndefined => "undefined"
  | .vNull => "null"
  | .vBool b => if b then "true" else "false"
  | .vNum n => toString n
  | .vNaN => "NaN"
  | .vStr s => s

/-- `amount.toString()` as called in `sendMoney`: throws a TypeError when the
receiver is `null` or `undefined`, otherwise stringifies. -/
def jsToStringM : JsVal → Except String String
  | .vUndefined => .error "Cannot read properties of undefined (reading 'toString')"
  | .vNull => .error "Cannot read properties of null (reading 'toString')"
  | v => .ok (jsToString v)

/-- Whether the value is a JavaScript string. -/
def isStr : JsVal → Bool
  | .vStr _ => true
  | _ => false

/-- Digit-stripping: `s.replace(/\D/g, '')` on a plain string. -/
def stripNonDigits (s : String) : String :=
  String.mk (s.data.filter Char.isDigit)

/-- `phone.replace(/\D/g, '')` (source lines 181 and 247): on a string,
strips every non-digit character; on any other value, `.replace` is not a
function and a TypeError is thrown. -/
def phoneReplace : JsVal → Except String String
  | .vStr s => .ok (stripNonDigits s)
  | _ => .error "phone.replace is not a function"

/-- The JSON payload of a provider response or error response body: the
`status` and `error` fields the code reads, plus an opaque remainder. -/
structure ProviderPayload where
  status : Option String
  err : Option String
  raw : String
deriving DecidableEq, Repr

/-- JavaScript `x || d` for an optional string field `x` of a payload:
`undefined` and the empty string fall through to the default. -/
def strOrElse (v : Option String) (d : String) : String :=
  match v with
  | some s => if s = "" then d else s
  | none => d

/-- One locally stored transaction record (`transactions[xReferenceId]`,
source lines 73-80), together with the fields attached later:
`mtmResponse` (line 108), `statusDetails` (line 144) and `error`
(line 119 - which is unreachable, see `sendMoney`). -/
structure TransferRecord where
  id : String
  amount : JsVal
  recipient : String
  message : String
  status : String
  createdAt : Nat
  mtmResponse : Option ProviderPayload
  statusDetails : Option ProviderPayload
  errStored : Option ProviderPayload
deriving DecidableEq, Repr

/-- The in-memory `transactions` object, keyed by reference id. -/
abbrev Ledger := List (String × TransferRecord)

/-- Property read `transactions[k]`. -/
def ledgerFind : Ledger → String → Option TransferRecord
  | [], _ => none
  | (k', r') :: rest, k => if k' = k then some r' else ledgerFind rest k

/-- Property write `transactions[k] = r` (overwrites an existing entry). -/
def ledgerSet : Ledger → String → TransferRecord → Ledger
  | [], k, r => [(k, r)]
  | (k', r') :: rest, k, r =>
    if k' = k then (k, r) :: rest else (k', r') :: ledgerSet rest k r

/-- One outbound transfer request (`axios.post .../transfer`, lines 82-104):
the body fields the claims are about. -/
structure TransferCall where
  amount : String
  partyId : String
  referenceId : String
  payerMessage : String
deriving DecidableEq, Repr

/-- Log of the outbound provider calls an operation issued. -/
structure CallLog where
  tokenCalls : Nat
  transferCalls : List TransferCall
  statusCalls : List String
deriving DecidableEq, Repr

/-- No outbound calls. -/
def emptyLog : CallLog := { tokenCalls := 0, transferCalls := [], statusCalls := [] }

/-- The provider as an oracle: outcome of the token exchange, of a transfer
request, and of a status query.  An `Except.error` on `transfer` or
`statusQuery` carries `error.response?.data` (`none` when the failure had no
response body, e.g. a network error). -/
structure Provider where
  token : Except Unit String
  transfer : TransferCall → Except (Option ProviderPayload) ProviderPayload
  statusQuery : String → Except (Option ProviderPayload) ProviderPayload

/-- Successful `sendMoney` result (source lines 110-114). -/
structure SendOk where
  transactionId : String
  response : ProviderPayload
deriving DecidableEq, Repr

/-- `externalId || Date.now().toString()` (line 70): the handlers pass no
`externalId`, so it defaults to `null` (here `none`); an empty string is
also falsy and falls through to the timestamp. -/
def refIdOf (externalId : Option String) (now : Nat) : String :=
  match externalId with
  | some e => if e = "" then toString now else e
  | none => toString now

/-- `sendMoney(amount, recipientPhone, message, externalId)` (lines 67-123).
`now` is `Date.now()`.  Returns the thrown error or result, the updated
ledger, and the provider calls issued.

The `catch` block (lines 115-122) reads `transactions[xReferenceId]`, but
`xReferenceId` is a `const` declared inside the `try` block and is not in
scope in the `catch`; evaluating that line raises
`ReferenceError: xReferenceId is not defined` before the record can be
marked FAILED or the provider error payload can be wrapped and rethrown.
So every failure path of `sendMoney` (auth failure, transfer failure,
`.toString()` on a nullish amount) escapes with that ReferenceError and
leaves the record, when one was written, at status INITIATED. -/
def sendMoney (p : Provider) (now : Nat) (tx : Ledger) (amount : JsVal)
    (recipientPhone : String) (message : String) (externalId : Option String) :
    Except String SendOk × Ledger × CallLog :=
  match p.token with
  | .error _ =>
    (.error "xReferenceId is not defined", tx,
      { tokenCalls := 1, transferCalls := [], statusCalls := [] })
  | .ok _ =>
    let xReferenceId := refIdOf externalId now
    let rec0 : TransferRecord :=
      { id := xReferenceId, amount := amount, recipient := recipientPhone,
        message := message, status := "INITIATED", createdAt := now,
        mtmResponse := none, statusDetails := none, errStored := none }
    let tx1 := ledgerSet tx xReferenceId rec0
    match jsToStringM amount with
    | .error _ =>
      (.error "xReferenceId is not defined", tx1,
        { tokenCalls := 1, transferCalls := [], statusCalls := [] })
    | .ok amountStr =>
      let call : TransferCall :=
        { amount := amountStr, partyId := recipientPhone,
          referenceId := xReferenceId, payerMessage := message }
      match p.transfer call with
      | .ok data =>
        let tx2 := ledgerSet tx1 xReferenceId
          { rec0 with status := "ACCEPTED", mtmResponse := some data }
        (.ok { transactionId := xReferenceId, response := data }, tx2,
          { tokenCalls := 1, transferCalls := [call], statusCalls := [] })
      | .error _ =>
        (.error "xReferenceId is not defined", tx1,
          { tokenCalls := 1, transferCalls := [call], statusCalls := [] })

/-- `getTransferStatus(referenceId)` (lines 126-152).  On success, refreshes
the local record's `status` to `response.data.status || 'UNKNOWN'` and
attaches the payload as `statusDetails` (lines 142-145).  On failure,
rethrows `error.response?.data?.error || 'Failed to get transfer status'`;
an auth failure carries no response body, so the fallback message is used. -/
def getTransferStatus (p : Provider) (tx : Ledger) (referenceId : String) :
    Except String ProviderPayload × Ledger × CallLog :=
  match p.token with
  | .error _ =>
    (.error "Failed to get transfer status", tx,
      { tokenCalls := 1, transferCalls := [], statusCalls := [] })
  | .ok _ =>
    match p.statusQuery referenceId with
    | .ok data =>
      let tx' :=
        match ledgerFind tx referenceId with
        | some r =>
          ledgerSet tx referenceId
            { r with
              status := strOrElse data.status "UNKNOWN",
              statusDetails := some data }
        | none => tx
      (.ok data, tx',
        { tokenCalls := 1, transferCalls := [], statusCalls := [referenceId] })
    | .error payload =>
      let msg :=
        match payload with
        | some pl => strOrElse pl.err "Failed to get transfer status"
        | none => "Failed to get transfer status"
      (.error msg, tx,
        { tokenCalls := 1, transferCalls := [], statusCalls := [referenceId] })

/-- The JSON reply of a route handler, with the HTTP status code
(`res.json` without `res.status` is 200) and the body fields the claims
are about. -/
structure ApiResponse where
  status : Nat
  success : Bool
  errMsg : Option String
  transactionId : Option String
  transaction : Option TransferRecord
  mtmStatus : Option ProviderPayload
deriving DecidableEq, Repr

/-- `res.status(code).json({success:false, error: msg})`. -/
def respErr (code : Nat) (msg : String) : ApiResponse :=
  { status := code, success := false, errMsg := some msg,
    transactionId := none, transaction := none, mtmStatus := none }

/-- Request body of POST /api/donate: `{phone, amount, message}`. -/
structure DonateBody where
  phone : JsVal
  amount : JsVal
  message : JsVal
deriving DecidableEq, Repr

/-- Request body of POST /api/save: `{goal, amount, frequency}`. -/
structure SaveBody where
  goal : JsVal
  amount : JsVal
  frequency : JsVal
deriving DecidableEq, Repr

/-- Request body of POST /api/withdraw: `{phone, amount}`. -/
structure WithdrawBody where
  phone : JsVal
  amount : JsVal
deriving DecidableEq, Repr

/-- POST /api/donate handler (lines 170-204).  The destructuring default
`message = 'Donation from Akin NevMo'` applies only when the field is
`undefined`.  Validation: `!phone || !amount || amount < 100` is a 400;
then `phone.replace(/\D/g, '')` (a TypeError here lands in the handler's
catch as a 500); fewer than 10 digits is a 400.  Otherwise
`sendMoney(amount, PLATFORM_PHONE, message + ' from ' + cleanPhone)`, and a
thrown error becomes a 500 with the error's message. -/
def donate (p : Provider) (now : Nat) (tx : Ledger) (body : DonateBody) :
    ApiResponse × Ledger × CallLog :=
  let message := if body.message = JsVal.vUndefined
    then JsVal.vStr "Donation from Akin NevMo" else body.message
  if !truthy body.phone || !truthy body.amount || jsLt body.amount 100 then
    (respErr 400 "Valid phone number and amount (min 100 XAF) required", tx, emptyLog)
  else
    match phoneReplace body.phone with
    | .error msg => (respErr 500 msg, tx, emptyLog)
    | .ok cleanPhone =>
      if cleanPhone.length < 10 then
        (respErr 400 "Invalid phone number", tx, emptyLog)
      else
        match sendMoney p now tx body.amount PLATFORM_PHONE
            (jsToString message ++ " from " ++ cleanPhone) none with
        | (.ok r, tx', log) =>
          ({ status := 200, success := true, errMsg := none,
             transactionId := some r.transactionId, transaction := none,
             mtmStatus := none }, tx', log)
        | (.error msg, tx', log) => (respErr 500 msg, tx', log)

/-- POST /api/save handler (lines 207-233).  `frequency` defaults to
`'monthly'` when `undefined`; validation is `!goal || !amount || amount < 100`;
the transfer always targets `PLATFORM_PHONE` with message
`Savings for "goal" (frequency)`. -/
def save (p : Provider) (now : Nat) (tx : Ledger) (body : SaveBody) :
    ApiResponse × Ledger × CallLog :=
  let frequency := if body.frequency = JsVal.vUndefined
    then JsVal.vStr "monthly" else body.frequency
  if !truthy body.goal || !truthy body.amount || jsLt body.amount 100 then
    (respErr 400 "Goal and amount (min 100 XAF) required", tx, emptyLog)
  else
    let message := "Savings for \"" ++ jsToString body.goal ++ "\" ("
      ++ jsToString frequency ++ ")"
    match sendMoney p now tx body.amount PLATFORM_PHONE message none with
    | (.ok r, tx', log) =>
      ({ status := 200, success := true, errMsg := none,
         transactionId := some r.transactionId, transaction := none,
         mtmStatus := none }, tx', log)
    | (.error msg, tx', log) => (respErr 500 msg, tx', log)

/-- POST /api/withdraw handler (lines 236-270).  Same validation as donate;
the transfer targets the caller's cleaned phone number. -/
def withdraw (p : Provider) (now : Nat) (tx : Ledger) (body : WithdrawBody) :
    ApiResponse × Ledger × CallLog :=
  if !truthy body.phone || !truthy body.amount || jsLt body.amount 100 then
    (respErr 400 "Valid phone number and amount (min 100 XAF) required", tx, emptyLog)
  else
    match phoneReplace body.phone with
    | .error msg => (respErr 500 msg, tx, emptyLog)
    | .ok cleanPhone =>
      if cleanPhone.length < 10 then
        (respErr 400 "Invalid phone number", tx, emptyLog)
      else
        match sendMoney p now tx body.amount cleanPhone
            "Withdrawal from Akin NevMo savings" none with
        | (.ok r, tx', log) =>
          ({ status := 200, success := true, errMsg := none,
             transactionId := some r.transactionId, transaction := none,
             mtmStatus := none }, tx', log)
        | (.error msg, tx', log) => (respErr 500 msg, tx', log)

/-- GET /api/transaction/:referenceId handler (lines 273-310).  A local
record with status INITIATED or ACCEPTED is refreshed from the provider; a
local record with any other status is returned from cache with no provider
call; with no local record the provider is queried directly.  The handler's
catch maps every thrown error to a 404 with the error's message. -/
def getTransaction (p : Provider) (tx : Ledger) (referenceId : String) :
    ApiResponse × Ledger × CallLog :=
  match ledgerFind tx referenceId with
  | some r =>
    if r.status = "INITIATED" ∨ r.status = "ACCEPTED" then
      match getTransferStatus p tx referenceId with
      | (.ok mtm, tx', log) =>
        ({ status := 200, success := true, errMsg := none,
           transactionId := none, transaction := ledgerFind tx' referenceId,
           mtmStatus := some mtm }, tx', log)
      | (.error msg, tx', log) => (respErr 404 msg, tx', log)
    else
      ({ status := 200, success := true, errMsg := none,
         transactionId := none, transaction := some r,
         mtmStatus := none }, tx, emptyLog)
  | none =>
    match getTransferStatus p tx referenceId with
    | (.ok mtm, tx', log) =>
      ({ status := 200, success := true, errMsg := none,
         transactionId := none, transaction := none,
         mtmStatus := some mtm }, tx', log)
    | (.error msg, tx', log) => (respErr 404 msg, tx', log)

/-- One reachable ledger-mutating operation: a `sendMoney` call (with any
arguments, including a caller-supplied `externalId`) or a status lookup
through the GET /api/transaction handler. -/
inductive Op where
  | send : Provider → Nat → JsVal → String → String → Option String → Op
  | query : Provider → String → Op

/-- Effect of one operation on the ledger. -/
def runOp (tx : Ledger) : Op → Ledger
  | .send p now amount recipient message externalId =>
    (sendMoney p now tx amount recipient message externalId).2.1
  | .query p referenceId => (getTransaction p tx referenceId).2.1

/-- Effect of a sequence of operations on the ledger. -/
def runOps (tx : Ledger) : List Op → Ledger
  | [] => tx
  | op :: ops => runOps (runOp tx op) ops

/-- The reference id a `sendMoney` operation writes to (`none` for a status
query, which creates no record). -/
def opRefId : Op → Option String
  | .send _ now _ _ _ externalId => some (refIdOf externalId now)
  | .query _ _ => none

/-! Concrete provider behaviours and ledger fixtures used by the witnesses
and counterexamples below. -/

/-- A provider payload whose `status` field is a non-terminal string. -/
def okPayload : ProviderPayload := { status := some "PENDING", err := none, raw := "ok" }

/-- An error payload carrying an `error` message field. -/
def failPayload : ProviderPayload := { status := none, err := some "payee not found", raw := "" }

/-- Provider for which the token exchange, transfers and status queries all succeed. -/
def pAccept : Provider :=
  { token := .ok "tok", transfer := fun _ => .ok okPayload,
    statusQuery := fun _ => .ok okPayload }

/-- Provider whose token exchange succeeds but whose transfer call fails with
a response body. -/
def pTransferFail : Provider :=
  { token := .ok "tok", transfer := fun _ => .error (some failPayload),
    statusQuery := fun _ => .ok okPayload }

/-- Provider whose token exchange fails (credentials rejected / unreachable). -/
def pNoToken : Provider :=
  { token := .error (), transfer := fun _ => .error none,
    statusQuery := fun _ => .error none }

/-- A ledger record with the non-terminal status INITIATED. -/
def recInit : TransferRecord :=
  { id := "r1", amount := JsVal.vNum 500, recipient := PLATFORM_PHONE,
    message := "m", status := "INITIATED", createdAt := 1,
    mtmResponse := none, statusDetails := none, errStored := none }

/-- A ledger record with a provider-reported terminal status. -/
def recDone : TransferRecord :=
  { id := "z1", amount := JsVal.vNum 500, recipient := PLATFORM_PHONE,
    message := "m", status := "SUCCESSFUL", createdAt := 1,
    mtmResponse := none, statusDetails := none, errStored := none }

/-- Provider whose token exchange succeeds but whose status query fails
with a response body. -/
def pStatusFail : Provider :=
  { token := .ok "tok", transfer := fun _ => .ok okPayload,
    statusQuery := fun _ => .error (some failPayload) }

/-- The ledger entry left by a successful `sendMoney` of 500 to the platform
at time 42 (used by the C4 witness). -/
def recAcc42 : TransferRecord :=
  { id := "42", amount := JsVal.vNum 500, recipient := PLATFORM_PHONE,
    message := "m", status := "ACCEPTED", createdAt := 42,
    mtmResponse := some okPayload, statusDetails := none, errStored := none }

/-- The ledger entry left by a successful donation of 500 at time 7
(used by the C4 witness). -/
def recDonate7 : TransferRecord :=
  { id := "7", amount := JsVal.vNum 500, recipient := PLATFORM_PHONE,
    message := "Donation from Akin NevMo from 231887716973",
    status := "ACCEPTED", createdAt := 7,
    mtmResponse := some okPayload, statusDetails := none, errStored := none }

/-! Basic lemmas about the ledger operations. -/

theorem ledgerFind_set_self (l : Ledger) (k : String) (r : TransferRecord) :
    ledgerFind (ledgerSet l k r) k = some r := by
  induction l with
  | nil => simp [ledgerSet, ledgerFind]
  | cons hd tl ih =>
    obtain ⟨k', r'⟩ := hd
    by_cases h : k' = k <;> simp [ledgerSet, ledgerFind, h, ih]

theorem ledgerFind_set_ne (l : Ledger) (k k' : String) (r : TransferRecord)
    (h : k' ≠ k) : ledgerFind (ledgerSet l k' r) k = ledgerFind l k := by
  induction l with
  | nil => simp [ledgerSet, ledgerFind, h]
  | cons hd tl ih =>
    obtain ⟨k0, r0⟩ := hd
    by_cases h0 : k0 = k' <;> simp [ledgerSet, ledgerFind, h0, h, ih]

/-- Every outbound transfer request issued by a `sendMoney` call carries the
`recipientPhone` argument as its payee party id. -/
theorem sendMoney_partyId (p : Provider) (now : Nat) (tx : Ledger) (amount : JsVal)
    (recipient message : String) (extId : Option String) (c : TransferCall)
    (h : c ∈ (sendMoney p now tx amount recipient message extId).2.2.transferCalls) :
    c.partyId = recipient := by
  simp only [sendMoney] at h
  split at h
  · simp_all
  · split at h
    · simp_all
    · split at h <;> simp_all

/-- Equation form of `sendMoney_partyId`, convenient after `split`. -/
theorem sendMoney_eq_partyId (p : Provider) (now : Nat) (tx : Ledger) (amount : JsVal)
    (recipient message : String) (extId : Option String)
    (res : Except String SendOk) (tx' : Ledger) (log : CallLog) (c : TransferCall)
    (heq : sendMoney p now tx amount recipient message extId = (res, tx', log))
    (h : c ∈ log.transferCalls) : c.partyId = recipient := by
  apply sendMoney_partyId p now tx amount recipient message extId c
  rw [heq]
  exact h

/-- Characterization of a successful `sendMoney` call: the returned
transaction id is the caller-supplied or generated reference id, and the
ledger afterwards holds the ACCEPTED record at that id. -/
theorem sendMoney_ok_spec (p : Provider) (now : Nat) (tx : Ledger) (amount : JsVal)
    (recipient message : String) (extId : Option String) (r : SendOk)
    (tx' : Ledger) (log : CallLog)
    (h : sendMoney p now tx amount recipient message extId = (Except.ok r, tx', log)) :
    r.transactionId = refIdOf extId now ∧
    ledgerFind tx' r.transactionId = some
      { id := refIdOf extId now, amount := amount, recipient := recipient,
        message := message, status := "ACCEPTED", createdAt := now,
        mtmResponse := some r.response, statusDetails := none, errStored := none } := by
  simp only [sendMoney] at h
  split at h
  · simp at h
  · split at h
    · simp at h
    · split at h
      · simp only [Prod.mk.injEq, Except.ok.injEq] at h
        obtain ⟨hr, htx, hlog⟩ := h
        subst hr htx
        exact ⟨rfl, ledgerFind_set_self _ _ _⟩
      · simp at h

/-- C1: every transfer request issued by the donate or the save handler
carries the platform identifier `PLATFORM_PHONE` as payee party, regardless
of the caller-supplied phone; every transfer request issued by the withdraw
handler carries the caller-supplied phone, after stripping non-digit
characters, as payee party. -/
theorem donate_save_pay_platform_withdraw_pays_caller :
    (∀ (p : Provider) (now : Nat) (tx : Ledger) (body : DonateBody) (c : TransferCall),
      c ∈ (donate p now tx body).2.2.transferCalls → c.partyId = PLATFORM_PHONE) ∧
    (∀ (p : Provider) (now : Nat) (tx : Ledger) (body : SaveBody) (c : TransferCall),
      c ∈ (save p now tx body).2.2.transferCalls → c.partyId = PLATFORM_PHONE) ∧
    (∀ (p : Provider) (now : Nat) (tx : Ledger) (body : WithdrawBody) (s : String)
      (c : TransferCall), body.phone = JsVal.vStr s →
      c ∈ (withdraw p now tx body).2.2.transferCalls → c.partyId = stripNonDigits s) := by
  refine ⟨?_, ?_, ?_⟩
  · intro p now tx body c h
    simp only [donate] at h
    split at h
    · simp [emptyLog] at h
    · split at h
      · simp [emptyLog] at h
      · split at h
        · simp [emptyLog] at h
        · split at h
          · rename_i r tx' log heq
            exact sendMoney_eq_partyId _ _ _ _ _ _ _ _ _ _ _ heq (by simpa using h)
          · rename_i msg tx' log heq
            exact sendMoney_eq_partyId _ _ _ _ _ _ _ _ _ _ _ heq (by simpa using h)
  · intro p now tx body c h
    simp only [save] at h
    split at h
    · simp [emptyLog] at h
    · split at h
      · rename_i r tx' log heq
        exact sendMoney_eq_partyId _ _ _ _ _ _ _ _ _ _ _ heq (by simpa using h)
      · rename_i msg tx' log heq
        exact sendMoney_eq_partyId _ _ _ _ _ _ _ _ _ _ _ heq (by simpa using h)
  · intro p now tx body s c hphone h
    simp only [withdraw] at h
    split at h
    · simp [emptyLog] at h
    · split at h
      · rename_i msg heq
        rw [hphone] at heq
        simp [phoneReplace] at heq
      · rename_i cleanPhone heq
        rw [hphone] at heq
        simp only [phoneReplace, Except.ok.injEq] at heq
        subst heq
        split at h
        · simp [emptyLog] at h
        · split at h
          · rename_i r tx' log heq2
            exact sendMoney_eq_partyId _ _ _ _ _ _ _ _ _ _ _ heq2 (by simpa using h)
          · rename_i msg tx' log heq2
            exact sendMoney_eq_partyId _ _ _ _ _ _ _ _ _ _ _ heq2 (by simpa using h)

/-- Witness for C1: concrete donate, save and withdraw requests whose single
outbound transfer call targets the platform number (donate, save) and the
cleaned caller phone (withdraw). -/
theorem c1_payee_witness :
    ({ amount := "500", partyId := PLATFORM_PHONE, referenceId := "7",
       payerMessage := "Donation from Akin NevMo from 231887716973" } : TransferCall).partyId
      = PLATFORM_PHONE ∧
    ({ amount := "500", partyId := PLATFORM_PHONE, referenceId := "9",
       payerMessage := "Savings for \"car\" (monthly)" } : TransferCall).partyId
      = PLATFORM_PHONE ∧
    ({ amount := "500", partyId := "231887716973", referenceId := "8",
       payerMessage := "Withdrawal from Akin NevMo savings" } : TransferCall).partyId
      = stripNonDigits "231-887-716-973" :=
  ⟨donate_save_pay_platform_withdraw_pays_caller.1 pAccept 7 []
    { phone := JsVal.vStr "231887716973", amount := JsVal.vNum 500,
      message := JsVal.vUndefined } _ (by decide),
   donate_save_pay_platform_withdraw_pays_caller.2.1 pAccept 9 []
    { goal := JsVal.vStr "car", amount := JsVal.vNum 500,
      frequency := JsVal.vUndefined } _ (by decide),
   donate_save_pay_platform_withdraw_pays_caller.2.2 pAccept 8 []
    { phone := JsVal.vStr "231-887-716-973", amount := JsVal.vNum 500 }
    "231-887-716-973" _ rfl (by decide)⟩

/-- C2: for every donate, save or withdraw request whose amount is a number
below 100, the handler replies HTTP 400 with success:false and an error
message, issues no provider call (no token exchange, no transfer), and
leaves the ledger unchanged. -/
theorem amount_below_minimum_rejected (p : Provider) (now : Nat) (tx : Ledger)
    (n : Int) (hn : n < 100) :
    (∀ body : DonateBody, body.amount = JsVal.vNum n →
      donate p now tx body =
        (respErr 400 "Valid phone number and amount (min 100 XAF) required", tx, emptyLog)) ∧
    (∀ body : SaveBody, body.amount = JsVal.vNum n →
      save p now tx body =
        (respErr 400 "Goal and amount (min 100 XAF) required", tx, emptyLog)) ∧
    (∀ body : WithdrawBody, body.amount = JsVal.vNum n →
      withdraw p now tx body =
        (respErr 400 "Valid phone number and amount (min 100 XAF) required", tx, emptyLog)) := by
  have hlt : jsLt (JsVal.vNum n) 100 = true := by
    simp [jsLt, toNumber]
    exact hn
  refine ⟨?_, ?_, ?_⟩ <;> intro body hb <;>
    simp [donate, save, withdraw, hb, hlt]

/-- Witness for C2: concrete requests with amount 50 are rejected with 400,
no provider calls and an unchanged ledger. -/
theorem c2_low_amount_witness :
    donate pAccept 1 []
      { phone := JsVal.vStr "231887716973", amount := JsVal.vNum 50,
        message := JsVal.vUndefined } =
      (respErr 400 "Valid phone number and amount (min 100 XAF) required", [], emptyLog) ∧
    save pAccept 1 []
      { goal := JsVal.vStr "car", amount := JsVal.vNum 50,
        frequency := JsVal.vUndefined } =
      (respErr 400 "Goal and amount (min 100 XAF) required", [], emptyLog) ∧
    withdraw pAccept 1 []
      { phone := JsVal.vStr "231887716973", amount := JsVal.vNum 50 } =
      (respErr 400 "Valid phone number and amount (min 100 XAF) required", [], emptyLog) :=
  ⟨(amount_below_minimum_rejected pAccept 1 [] 50 (by decide)).1 _ rfl,
   (amount_below_minimum_rejected pAccept 1 [] 50 (by decide)).2.1 _ rfl,
   (amount_below_minimum_rejected pAccept 1 [] 50 (by decide)).2.2 _ rfl⟩

/-- C6: for every donate or withdraw request whose phone is a string with
fewer than 10 digits after stripping non-digit characters, the handler
replies HTTP 400 (with one of the two validation messages), issues no
provider call, and creates no ledger entry. -/
theorem short_phone_rejected (p : Provider) (now : Nat) (tx : Ledger) (s : String)
    (hs : (stripNonDigits s).length < 10) :
    (∀ body : DonateBody, body.phone = JsVal.vStr s →
      donate p now tx body =
        (respErr 400 "Valid phone number and amount (min 100 XAF) required", tx, emptyLog) ∨
      donate p now tx body = (respErr 400 "Invalid phone number", tx, emptyLog)) ∧
    (∀ body : WithdrawBody, body.phone = JsVal.vStr s →
      withdraw p now tx body =
        (respErr 400 "Valid phone number and amount (min 100 XAF) required", tx, emptyLog) ∨
      withdraw p now tx body = (respErr 400 "Invalid phone number", tx, emptyLog)) := by
  constructor
  · intro body hb
    obtain ⟨ph, am, me⟩ := body
    dsimp only at hb
    subst hb
    by_cases hc : (!truthy (JsVal.vStr s) || !truthy am || jsLt am 100) = true
    · left
      simp [donate, hc]
    · right
      simp [donate, hc, phoneReplace, hs]
  · intro body hb
    obtain ⟨ph, am⟩ := body
    dsimp only at hb
    subst hb
    by_cases hc : (!truthy (JsVal.vStr s) || !truthy am || jsLt am 100) = true
    · left
      simp [withdraw, hc]
    · right
      simp [withdraw, hc, phoneReplace, hs]

/-- Witness for C6: the spec's own example `{phone:"123", amount:500}` is
rejected with 400 and no ledger entry. -/
theorem c6_short_phone_witness :
    (donate pAccept 1 []
      { phone := JsVal.vStr "123", amount := JsVal.vNum 500,
        message := JsVal.vUndefined } =
      (respErr 400 "Valid phone number and amount (min 100 XAF) required", [], emptyLog) ∨
     donate pAccept 1 []
      { phone := JsVal.vStr "123", amount := JsVal.vNum 500,
        message := JsVal.vUndefined } =
      (respErr 400 "Invalid phone number", [], emptyLog)) ∧
    (withdraw pAccept 1 []
      { phone := JsVal.vStr "123", amount := JsVal.vNum 500 } =
      (respErr 400 "Valid phone number and amount (min 100 XAF) required", [], emptyLog) ∨
     withdraw pAccept 1 []
      { phone := JsVal.vStr "123", amount := JsVal.vNum 500 } =
      (respErr 400 "Invalid phone number", [], emptyLog)) :=
  ⟨(short_phone_rejected pAccept 1 [] "123" (by decide)).1 _ rfl,
   (short_phone_rejected pAccept 1 [] "123" (by decide)).2 _ rfl⟩

/-- C10: for every donate or withdraw request whose amount is a number of at
least 100 but whose phone is truthy and not a string, the handler does not
return a 400: `phone.replace` throws a TypeError, the handler's catch maps
it to HTTP 500 with success:false and the TypeError's message, no ledger
entry is created and no provider call is issued. -/
theorem nonstring_phone_yields_500 (p : Provider) (now : Nat) (tx : Ledger)
    (phv : JsVal) (a : Int) (htr : truthy phv = true) (hstr : isStr phv = false)
    (ha : 100 ≤ a) :
    (∀ body : DonateBody, body.phone = phv → body.amount = JsVal.vNum a →
      donate p now tx body =
        (respErr 500 "phone.replace is not a function", tx, emptyLog)) ∧
    (∀ body : WithdrawBody, body.phone = phv → body.amount = JsVal.vNum a →
      withdraw p now tx body =
        (respErr 500 "phone.replace is not a function", tx, emptyLog)) := by
  have hlt : jsLt (JsVal.vNum a) 100 = false := by
    simp [jsLt, toNumber]
    omega
  have htru : truthy (JsVal.vNum a) = true := by
    simp [truthy]
    omega
  have hrep : phoneReplace phv = .error "phone.replace is not a function" := by
    cases phv <;> simp_all [isStr, phoneReplace]
  refine ⟨?_, ?_⟩ <;> intro body hb1 hb2 <;>
    simp [donate, withdraw, hb1, hb2, hlt, htru, htr, hrep]

/-- Witness for C10: the phone sent as the JSON number 231887716973 with
amount 500 yields a 500 with the TypeError message, not a 400. -/
theorem c10_nonstring_phone_witness :
    donate pAccept 1 []
      { phone := JsVal.vNum 231887716973, amount := JsVal.vNum 500,
        message := JsVal.vUndefined } =
      (respErr 500 "phone.replace is not a function", [], emptyLog) ∧
    withdraw pAccept 1 []
      { phone := JsVal.vNum 231887716973, amount := JsVal.vNum 500 } =
      (respErr 500 "phone.replace is not a function", [], emptyLog) :=
  ⟨(nonstring_phone_yields_500 pAccept 1 [] (JsVal.vNum 231887716973) 500
      (by decide) (by decide) (by decide)).1 _ rfl rfl,
   (nonstring_phone_yields_500 pAccept 1 [] (JsVal.vNum 231887716973) 500
      (by decide) (by decide) (by decide)).2 _ rfl rfl⟩

/-- C3 (code bug): when the provider transfer call fails, `sendMoney` does
not mark the record FAILED, does not store the provider's error payload, and
does not throw an error wrapping that payload: the catch block reads the
try-scoped `const xReferenceId`, so a `ReferenceError: xReferenceId is not
defined` escapes instead, the record stays INITIATED with no stored error,
and the donate handler responds 500 with the ReferenceError's message. -/
theorem transfer_failure_reference_error :
    (sendMoney pTransferFail 1234 [] (JsVal.vNum 500) PLATFORM_PHONE "m" none).1 =
      Except.error "xReferenceId is not defined" ∧
    (ledgerFind (sendMoney pTransferFail 1234 [] (JsVal.vNum 500) PLATFORM_PHONE
        "m" none).2.1 "1234").map TransferRecord.status = some "INITIATED" ∧
    (ledgerFind (sendMoney pTransferFail 1234 [] (JsVal.vNum 500) PLATFORM_PHONE
        "m" none).2.1 "1234").map TransferRecord.errStored = some none ∧
    (donate pTransferFail 777 []
      { phone := JsVal.vStr "231887716973", amount := JsVal.vNum 500,
        message := JsVal.vUndefined }).1 =
      respErr 500 "xReferenceId is not defined" := by decide

/-- C4: a successful transfer leaves a ledger entry at the generated or
caller-supplied reference id whose status is ACCEPTED, and the donate
handler passes that same reference id back unchanged as transactionId. -/
theorem success_leaves_accepted_entry_and_returns_id :
    (∀ (p : Provider) (now : Nat) (tx : Ledger) (amount : JsVal)
      (recipient message : String) (extId : Option String) (r : SendOk)
      (tx' : Ledger) (log : CallLog),
      sendMoney p now tx amount recipient message extId = (Except.ok r, tx', log) →
      r.transactionId = refIdOf extId now ∧
      ∃ rec, ledgerFind tx' r.transactionId = some rec ∧ rec.status = "ACCEPTED") ∧
    (∀ (p : Provider) (now : Nat) (tx : Ledger) (body : DonateBody)
      (resp : ApiResponse) (tx' : Ledger) (log : CallLog),
      donate p now tx body = (resp, tx', log) → resp.status = 200 →
      ∃ refId, resp.transactionId = some refId ∧
        ∃ rec, ledgerFind tx' refId = some rec ∧ rec.status = "ACCEPTED") := by
  constructor
  · intro p now tx amount recipient message extId r tx' log h
    obtain ⟨h1, h2⟩ := sendMoney_ok_spec p now tx amount recipient message extId r tx' log h
    exact ⟨h1, _, h2, rfl⟩
  · intro p now tx body resp tx' log h h200
    simp only [donate] at h
    split at h
    · simp only [Prod.mk.injEq] at h
      obtain ⟨hresp, -, -⟩ := h
      rw [← hresp] at h200
      simp [respErr] at h200
    · split at h
      · simp only [Prod.mk.injEq] at h
        obtain ⟨hresp, -, -⟩ := h
        rw [← hresp] at h200
        simp [respErr] at h200
      · split at h
        · simp only [Prod.mk.injEq] at h
          obtain ⟨hresp, -, -⟩ := h
          rw [← hresp] at h200
          simp [respErr] at h200
        · split at h
          · rename_i r0 tx0 log0 heq
            simp only [Prod.mk.injEq] at h
            obtain ⟨hresp, htx, -⟩ := h
            subst htx
            obtain ⟨-, h2⟩ := sendMoney_ok_spec _ _ _ _ _ _ _ _ _ _ heq
            refine ⟨r0.transactionId, ?_, _, h2, rfl⟩
            rw [← hresp]
          · rename_i msg tx0 log0 heq
            simp only [Prod.mk.injEq] at h
            obtain ⟨hresp, -, -⟩ := h
            rw [← hresp] at h200
            simp [respErr] at h200

/-- Witness for C4: a concrete successful sendMoney at time 42 and a
concrete successful donation at time 7, each leaving an ACCEPTED record
whose reference id the caller receives. -/
theorem c4_success_witness :
    (({ transactionId := "42", response := okPayload } : SendOk).transactionId =
        refIdOf none 42 ∧
      ∃ rec, ledgerFind [("42", recAcc42)]
          ({ transactionId := "42", response := okPayload } : SendOk).transactionId =
            some rec ∧ rec.status = "ACCEPTED") ∧
    (∃ refId,
      ({ status := 200, success := true, errMsg := none, transactionId := some "7",
         transaction := none, mtmStatus := none } : ApiResponse).transactionId =
          some refId ∧
      ∃ rec, ledgerFind [("7", recDonate7)] refId = some rec ∧
        rec.status = "ACCEPTED") :=
  ⟨success_leaves_accepted_entry_and_returns_id.1 pAccept 42 [] (JsVal.vNum 500)
      PLATFORM_PHONE "m" none { transactionId := "42", response := okPayload }
      [("42", recAcc42)]
      { tokenCalls := 1,
        transferCalls := [{ amount := "500",
                            partyId := PLATFORM_PHONE,
                            referenceId := "42",
                            payerMessage := "m" }],
        statusCalls := [] } (by decide),
   success_leaves_accepted_entry_and_returns_id.2 pAccept 7 []
      { phone := JsVal.vStr "231887716973", amount := JsVal.vNum 500,
        message := JsVal.vUndefined }
      { status := 200, success := true, errMsg := none, transactionId := some "7",
        transaction := none, mtmStatus := none }
      [("7", recDonate7)]
      { tokenCalls := 1,
        transferCalls := [{ amount := "500",
                            partyId := PLATFORM_PHONE,
                            referenceId := "7",
                            payerMessage := "Donation from Akin NevMo from 231887716973" }],
        statusCalls := [] } (by decide) (by decide)⟩

/-- C7 counterexample: the amount "abc" is not a number, yet the donate
handler does not reply 400: the validation comparison against NaN is false,
so the request passes validation and a transfer carrying the invalid amount
"abc" is issued to the provider. -/
theorem c7_nonnumeric_amount_passes :
    (donate pAccept 777 []
      { phone := JsVal.vStr "231887716973", amount := JsVal.vStr "abc",
        message := JsVal.vUndefined }).1.status ≠ 400 ∧
    (donate pAccept 777 []
      { phone := JsVal.vStr "231887716973", amount := JsVal.vStr "abc",
        message := JsVal.vUndefined }).2.2.transferCalls =
      [{ amount := "abc", partyId := PLATFORM_PHONE, referenceId := "777",
         payerMessage := "Donation from Akin NevMo from 231887716973" }] := by decide

/-- C7 (amended): every violation of the checks the handlers actually
perform — a falsy phone or goal, a falsy amount, an amount comparing below
100 under JavaScript numeric coercion, or a string phone reducing to fewer
than 10 digits — yields HTTP 400 with success:false and an error message,
no provider call and no ledger change.  (A truthy non-numeric amount, such
as the string "abc", is not rejected: NaN comparisons are false, so it
passes validation and reaches the provider.) -/
theorem checked_validation_violations_rejected (p : Provider) (now : Nat) (tx : Ledger) :
    (∀ body : DonateBody,
      (truthy body.phone = false ∨ truthy body.amount = false ∨
        jsLt body.amount 100 = true ∨
        (∃ s, body.phone = JsVal.vStr s ∧ (stripNonDigits s).length < 10)) →
      (donate p now tx body).1.status = 400 ∧
      (donate p now tx body).1.success = false ∧
      (donate p now tx body).1.errMsg.isSome = true ∧
      (donate p now tx body).2.1 = tx ∧ (donate p now tx body).2.2 = emptyLog) ∧
    (∀ body : SaveBody,
      (truthy body.goal = false ∨ truthy body.amount = false ∨
        jsLt body.amount 100 = true) →
      (save p now tx body).1.status = 400 ∧
      (save p now tx body).1.success = false ∧
      (save p now tx body).1.errMsg.isSome = true ∧
      (save p now tx body).2.1 = tx ∧ (save p now tx body).2.2 = emptyLog) ∧
    (∀ body : WithdrawBody,
      (truthy body.phone = false ∨ truthy body.amount = false ∨
        jsLt body.amount 100 = true ∨
        (∃ s, body.phone = JsVal.vStr s ∧ (stripNonDigits s).length < 10)) →
      (withdraw p now tx body).1.status = 400 ∧
      (withdraw p now tx body).1.success = false ∧
      (withdraw p now tx body).1.errMsg.isSome = true ∧
      (withdraw p now tx body).2.1 = tx ∧ (withdraw p now tx body).2.2 = emptyLog) := by
  refine ⟨?_, ?_, ?_⟩
  · intro body hv
    by_cases hc : (!truthy body.phone || !truthy body.amount || jsLt body.amount 100) = true
    · simp [donate, hc, respErr, emptyLog]
    · have hc' : truthy body.phone = true ∧ truthy body.amount = true ∧
          jsLt body.amount 100 = false := by
        rcases hp : truthy body.phone <;> rcases ha : truthy body.amount <;>
          rcases hl : jsLt body.amount 100 <;> simp_all
      rcases hv with h1 | h2 | h3 | ⟨s, hs1, hs2⟩
      · rw [h1] at hc'
        simp at hc'
      · rw [h2] at hc'
        simp at hc'
      · rw [h3] at hc'
        simp at hc'
      · simp [donate, hc, hs1, phoneReplace, hs2, respErr, emptyLog]
        split_ifs <;> simp
  · intro body hv
    have hc : (!truthy body.goal || !truthy body.amount || jsLt body.amount 100) = true := by
      rcases hv with h1 | h2 | h3
      · simp [h1]
      · simp [h2]
      · simp [h3]
    simp [save, hc, respErr, emptyLog]
  · intro body hv
    by_cases hc : (!truthy body.phone || !truthy body.amount || jsLt body.amount 100) = true
    · simp [withdraw, hc, respErr, emptyLog]
    · have hc' : truthy body.phone = true ∧ truthy body.amount = true ∧
          jsLt body.amount 100 = false := by
        rcases hp : truthy body.phone <;> rcases ha : truthy body.amount <;>
          rcases hl : jsLt body.amount 100 <;> simp_all
      rcases hv with h1 | h2 | h3 | ⟨s, hs1, hs2⟩
      · rw [h1] at hc'
        simp at hc'
      · rw [h2] at hc'
        simp at hc'
      · rw [h3] at hc'
        simp at hc'
      · simp [withdraw, hc, hs1, phoneReplace, hs2, respErr, emptyLog]
        split_ifs <;> simp

/-- Witness for the amended C7: a missing phone, a missing goal and a low
amount are each rejected with 400, no provider call and no ledger change. -/
theorem c7_validation_witness :
    ((donate pAccept 1 []
        { phone := JsVal.vUndefined, amount := JsVal.vNum 500,
          message := JsVal.vUndefined }).1.status = 400 ∧
      (donate pAccept 1 []
        { phone := JsVal.vUndefined, amount := JsVal.vNum 500,
          message := JsVal.vUndefined }).1.success = false ∧
      (donate pAccept 1 []
        { phone := JsVal.vUndefined, amount := JsVal.vNum 500,
          message := JsVal.vUndefined }).1.errMsg.isSome = true ∧
      (donate pAccept 1 []
        { phone := JsVal.vUndefined, amount := JsVal.vNum 500,
          message := JsVal.vUndefined }).2.1 = [] ∧
      (donate pAccept 1 []
        { phone := JsVal.vUndefined, amount := JsVal.vNum 500,
          message := JsVal.vUndefined }).2.2 = emptyLog) ∧
    ((save pAccept 1 []
        { goal := JsVal.vNull, amount := JsVal.vNum 500,
          frequency := JsVal.vUndefined }).1.status = 400 ∧
      (save pAccept 1 []
        { goal := JsVal.vNull, amount := JsVal.vNum 500,
          frequency := JsVal.vUndefined }).1.success = false ∧
      (save pAccept 1 []
        { goal := JsVal.vNull, amount := JsVal.vNum 500,
          frequency := JsVal.vUndefined }).1.errMsg.isSome = true ∧
      (save pAccept 1 []
        { goal := JsVal.vNull, amount := JsVal.vNum 500,
          frequency := JsVal.vUndefined }).2.1 = [] ∧
      (save pAccept 1 []
        { goal := JsVal.vNull, amount := JsVal.vNum 500,
          frequency := JsVal.vUndefined }).2.2 = emptyLog) ∧
    ((withdraw pAccept 1 []
        { phone := JsVal.vStr "231887716973", amount := JsVal.vNum 99 }).1.status = 400 ∧
      (withdraw pAccept 1 []
        { phone := JsVal.vStr "231887716973", amount := JsVal.vNum 99 }).1.success = false ∧
      (withdraw pAccept 1 []
        { phone := JsVal.vStr "231887716973", amount := JsVal.vNum 99 }).1.errMsg.isSome = true ∧
      (withdraw pAccept 1 []
        { phone := JsVal.vStr "231887716973", amount := JsVal.vNum 99 }).2.1 = [] ∧
      (withdraw pAccept 1 []
        { phone := JsVal.vStr "231887716973", amount := JsVal.vNum 99 }).2.2 = emptyLog) :=
  ⟨(checked_validation_violations_rejected pAccept 1 []).1
      { phone := JsVal.vUndefined, amount := JsVal.vNum 500,
        message := JsVal.vUndefined } (Or.inl (by decide)),
   (checked_validation_violations_rejected pAccept 1 []).2.1
      { goal := JsVal.vNull, amount := JsVal.vNum 500,
        frequency := JsVal.vUndefined } (Or.inl (by decide)),
   (checked_validation_violations_rejected pAccept 1 []).2.2
      { phone := JsVal.vStr "231887716973", amount := JsVal.vNum 99 }
      (Or.inr (Or.inr (Or.inl (by decide))))⟩

/-- C5 counterexample: with a locally known INITIATED (non-terminal) record
and a provider whose token exchange fails, the handler responds (with a 404)
without issuing any status query and without refreshing the record's status
field, so the non-terminal half of the claim fails as stated. -/
theorem c5_token_failure_no_refresh :
    (ledgerFind [("r1", recInit)] "r1").map TransferRecord.status =
      some "INITIATED" ∧
    (getTransaction pNoToken [("r1", recInit)] "r1").2.2.statusCalls = [] ∧
    (getTransaction pNoToken [("r1", recInit)] "r1").2.1 = [("r1", recInit)] ∧
    (getTransaction pNoToken [("r1", recInit)] "r1").1.status = 404 := by decide

/-- C5 (amended): a local record with terminal status (neither INITIATED nor
ACCEPTED) is returned from cache with no provider call and no ledger change;
a local record with non-terminal status causes a provider re-query, and when
the token exchange and the status query both succeed, the record's status
field is refreshed to the provider-reported status (or UNKNOWN when the
payload has no status) before responding. -/
theorem status_cache_policy (p : Provider) (tx : Ledger) (ref : String)
    (r : TransferRecord) (hfind : ledgerFind tx ref = some r) :
    (r.status ≠ "INITIATED" ∧ r.status ≠ "ACCEPTED" →
      getTransaction p tx ref =
        ({ status := 200, success := true, errMsg := none, transactionId := none,
           transaction := some r, mtmStatus := none }, tx, emptyLog)) ∧
    (∀ (t : String) (data : ProviderPayload),
      (r.status = "INITIATED" ∨ r.status = "ACCEPTED") →
      p.token = Except.ok t → p.statusQuery ref = Except.ok data →
      getTransaction p tx ref =
        ({ status := 200, success := true, errMsg := none, transactionId := none,
           transaction := some { r with
             status := strOrElse data.status "UNKNOWN",
             statusDetails := some data },
           mtmStatus := some data },
         ledgerSet tx ref { r with
           status := strOrElse data.status "UNKNOWN",
           statusDetails := some data },
         { tokenCalls := 1, transferCalls := [], statusCalls := [ref] })) := by
  constructor
  · intro h
    have hst : ¬(r.status = "INITIATED" ∨ r.status = "ACCEPTED") := by
      rcases h with ⟨h1, h2⟩
      intro hor
      rcases hor with h | h
      · exact h1 h
      · exact h2 h
    simp [getTransaction, hfind, hst, emptyLog]
  · intro t data hst htok hq
    simp [getTransaction, hfind, hst, getTransferStatus, htok, hq,
      ledgerFind_set_self]

/-- Witness for the amended C5: a terminal record is served from cache with
no provider call, and an INITIATED record is refreshed to the provider's
PENDING status before responding. -/
theorem c5_policy_witness :
    getTransaction pAccept [("z1", recDone)] "z1" =
      ({ status := 200, success := true, errMsg := none, transactionId := none,
         transaction := some recDone, mtmStatus := none },
       [("z1", recDone)], emptyLog) ∧
    getTransaction pAccept [("r1", recInit)] "r1" =
      ({ status := 200, success := true, errMsg := none, transactionId := none,
         transaction := some { recInit with
           status := strOrElse okPayload.status "UNKNOWN",
           statusDetails := some okPayload },
         mtmStatus := some okPayload },
       ledgerSet [("r1", recInit)] "r1" { recInit with
         status := strOrElse okPayload.status "UNKNOWN",
         statusDetails := some okPayload },
       { tokenCalls := 1, transferCalls := [], statusCalls := ["r1"] }) :=
  ⟨(status_cache_policy pAccept [("z1", recDone)] "z1" recDone (by decide)).1
      (by decide),
   (status_cache_policy pAccept [("r1", recInit)] "r1" recInit (by decide)).2
      "tok" okPayload (by decide) rfl rfl⟩

/-- C8 counterexample: the local ledger knows the reference id (so "neither
the ledger nor the provider recognizes it" is false), yet a provider error
while refreshing the non-terminal record still produces a 404 response,
because the handler's catch maps every thrown error to 404. -/
theorem c8_known_record_gets_404 :
    ledgerFind [("r1", recInit)] "r1" ≠ none ∧
    (getTransaction pStatusFail [("r1", recInit)] "r1").1.status = 404 ∧
    (getTransaction pStatusFail [("r1", recInit)] "r1").1.success = false := by decide

/-- C8 (amended): GET /api/transaction/:referenceId responds 404 exactly when
the lookup path throws, i.e. when every local record at the id (if any) is
non-terminal (INITIATED or ACCEPTED) and the provider query fails (token
exchange failure or status-query error) — which includes provider and auth
failures while refreshing a locally known non-terminal record, not only the
id being unknown everywhere. -/
theorem notfound_iff_lookup_path_fails (p : Provider) (tx : Ledger) (ref : String) :
    (getTransaction p tx ref).1.status = 404 ↔
      ((∀ r, ledgerFind tx ref = some r →
          (r.status = "INITIATED" ∨ r.status = "ACCEPTED")) ∧
       (p.token = Except.error () ∨ ∃ e, p.statusQuery ref = Except.error e)) := by
  rcases hfind : ledgerFind tx ref with _ | r
  · rcases htok : p.token with u | t
    · cases u
      have hres : (getTransaction p tx ref).1.status = 404 := by
        simp [getTransaction, hfind, getTransferStatus, htok, respErr]
      rw [hres]
      exact iff_of_true rfl ⟨fun r hr => Option.noConfusion hr, Or.inl rfl⟩
    · rcases hq : p.statusQuery ref with e | data
      · have hres : (getTransaction p tx ref).1.status = 404 := by
          simp [getTransaction, hfind, getTransferStatus, htok, hq, respErr]
        rw [hres]
        exact iff_of_true rfl ⟨fun r hr => Option.noConfusion hr, Or.inr ⟨e, rfl⟩⟩
      · have hres : (getTransaction p tx ref).1.status = 200 := by
          simp [getTransaction, hfind, getTransferStatus, htok, hq]
        rw [hres]
        refine iff_of_false (by decide) ?_
        rintro ⟨-, habs | ⟨e, habs⟩⟩
        · cases habs
        · cases habs
  · by_cases hst : r.status = "INITIATED" ∨ r.status = "ACCEPTED"
    · rcases htok : p.token with u | t
      · cases u
        have hres : (getTransaction p tx ref).1.status = 404 := by
          simp [getTransaction, hfind, hst, getTransferStatus, htok, respErr]
        rw [hres]
        refine iff_of_true rfl ⟨?_, Or.inl rfl⟩
        intro r' hr'
        injection hr' with h
        subst h
        exact hst
      · rcases hq : p.statusQuery ref with e | data
        · have hres : (getTransaction p tx ref).1.status = 404 := by
            simp [getTransaction, hfind, hst, getTransferStatus, htok, hq, respErr]
          rw [hres]
          refine iff_of_true rfl ⟨?_, Or.inr ⟨e, rfl⟩⟩
          intro r' hr'
          injection hr' with h
          subst h
          exact hst
        · have hres : (getTransaction p tx ref).1.status = 200 := by
            simp [getTransaction, hfind, hst, getTransferStatus, htok, hq]
          rw [hres]
          refine iff_of_false (by decide) ?_
          rintro ⟨-, habs | ⟨e, habs⟩⟩
          · cases habs
          · cases habs
    · have hres : (getTransaction p tx ref).1.status = 200 := by
        simp [getTransaction, hfind, hst]
      rw [hres]
      refine iff_of_false (by decide) ?_
      rintro ⟨hall, -⟩
      exact hst (hall r rfl)

/-- Witness for the amended C8: a locally known non-terminal record plus a
failing token exchange produce a 404 (right-to-left direction), and a
terminal cached record never produces a 404 (left-to-right direction used
contrapositively through the equivalence). -/
theorem c8_notfound_witness :
    (getTransaction pNoToken [("r2", recInit)] "r2").1.status = 404 :=
  (notfound_iff_lookup_path_fails pNoToken [("r2", recInit)] "r2").mpr
    ⟨fun r hr => by
        have : recInit = r := by simpa [ledgerFind] using hr
        rw [← this]
        exact Or.inl rfl,
      Or.inl rfl⟩

/-- A `sendMoney` call leaves every ledger key other than its own reference
id untouched. -/
theorem sendMoney_preserves_other (p : Provider) (now : Nat) (tx : Ledger)
    (amount : JsVal) (recipient message : String) (extId : Option String)
    (k : String) (hk : refIdOf extId now ≠ k) :
    ledgerFind (sendMoney p now tx amount recipient message extId).2.1 k =
      ledgerFind tx k := by
  simp only [sendMoney]
  split
  · rfl
  · split
    · exact ledgerFind_set_ne tx k (refIdOf extId now) _ hk
    · split
      · rw [ledgerFind_set_ne _ k (refIdOf extId now) _ hk,
          ledgerFind_set_ne tx k (refIdOf extId now) _ hk]
      · exact ledgerFind_set_ne tx k (refIdOf extId now) _ hk

/-- A status lookup through the GET handler never changes a ledger entry
whose status is terminal (neither INITIATED nor ACCEPTED). -/
theorem getTransaction_preserves_terminal (p : Provider) (tx : Ledger)
    (ref k : String) (r : TransferRecord) (hfind : ledgerFind tx k = some r)
    (hterm : r.status ≠ "INITIATED" ∧ r.status ≠ "ACCEPTED") :
    ledgerFind (getTransaction p tx ref).2.1 k = some r := by
  have hother : ∀ tx0 : Ledger, ledgerFind (getTransferStatus p tx0 ref).2.1 k =
      ledgerFind tx0 k ∨ ref = k := by
    intro tx0
    by_cases hrk : ref = k
    · exact Or.inr hrk
    · refine Or.inl ?_
      simp only [getTransferStatus]
      split
      · rfl
      · split
        · split
          · exact ledgerFind_set_ne tx0 k ref _ hrk
          · rfl
        · rfl
  by_cases hrk : ref = k
  · subst hrk
    have hst : ¬(r.status = "INITIATED" ∨ r.status = "ACCEPTED") := by
      rintro (h | h)
      · exact hterm.1 h
      · exact hterm.2 h
    simp [getTransaction, hfind, hst]
  · simp only [getTransaction]
    split
    · split
      · split
        · rename_i mtm tx' log heq
          rcases hother tx with h | h
          · rw [heq] at h
            exact h.trans hfind
          · exact absurd h hrk
        · rename_i msg tx' log heq
          rcases hother tx with h | h
          · rw [heq] at h
            exact h.trans hfind
          · exact absurd h hrk
      · exact hfind
    · split
      · rename_i mtm tx' log heq
        rcases hother tx with h | h
        · rw [heq] at h
          exact h.trans hfind
        · exact absurd h hrk
      · rename_i msg tx' log heq
        rcases hother tx with h | h
        · rw [heq] at h
          exact h.trans hfind
        · exact absurd h hrk

/-- One operation with a reference id different from `k` (or none at all)
preserves a terminal record at `k`. -/
theorem runOp_preserves_terminal (tx : Ledger) (k : String) (r : TransferRecord)
    (op : Op) (hfind : ledgerFind tx k = some r)
    (hterm : r.status ≠ "INITIATED" ∧ r.status ≠ "ACCEPTED")
    (hop : opRefId op ≠ some k) :
    ledgerFind (runOp tx op) k = some r := by
  cases op with
  | send p now amount recipient message extId =>
    have hk : refIdOf extId now ≠ k := by
      intro hcontra
      exact hop (by simp [opRefId, hcontra])
    rw [runOp, sendMoney_preserves_other p now tx amount recipient message extId k hk]
    exact hfind
  | query p ref =>
    exact getTransaction_preserves_terminal p tx ref k r hfind hterm

/-- C9 counterexample: two `sendMoney` calls in the same millisecond collide
on the timestamp-generated reference id "5"; the second call overwrites the
record, moving its status from ACCEPTED back to INITIATED — a backward
transition in the claimed diagram. -/
theorem c9_accepted_back_to_initiated :
    (ledgerFind (runOps []
      [Op.send pAccept 5 (JsVal.vNum 500) PLATFORM_PHONE "m" none]) "5").map
        TransferRecord.status = some "ACCEPTED" ∧
    (ledgerFind (runOps []
      [Op.send pAccept 5 (JsVal.vNum 500) PLATFORM_PHONE "m" none,
       Op.send pTransferFail 5 (JsVal.vNum 600) PLATFORM_PHONE "m2" none]) "5").map
        TransferRecord.status = some "INITIATED" := by decide

/-- C9 (amended): along every sequence of `sendMoney` calls and status
queries in which no `sendMoney` call reuses the reference id `k`, a record
at `k` whose status is terminal (neither INITIATED nor ACCEPTED) is never
modified: the status diagram moves only forward unless a colliding
reference id overwrites the record. -/
theorem terminal_status_stable (ops : List Op) (tx : Ledger) (k : String)
    (r : TransferRecord)
    (hterm : r.status ≠ "INITIATED" ∧ r.status ≠ "ACCEPTED")
    (hfresh : ∀ op ∈ ops, opRefId op ≠ some k)
    (hfind : ledgerFind tx k = some r) :
    ledgerFind (runOps tx ops) k = some r := by
  induction ops generalizing tx with
  | nil => exact hfind
  | cons op rest ih =>
    rw [runOps]
    exact ih (runOp tx op)
      (fun o ho => hfresh o (List.mem_cons_of_mem _ ho))
      (runOp_preserves_terminal tx k r op hfind hterm
        (hfresh op (List.mem_cons_self _ _)))

/-- Witness for the amended C9: a ledger holding a SUCCESSFUL record keeps
it unchanged across a status query and a fresh-id sendMoney call. -/
theorem c9_stability_witness :
    ledgerFind (runOps [("z1", recDone)]
      [Op.query pAccept "z1",
       Op.send pAccept 9 (JsVal.vNum 500) "2310000000" "m" none]) "z1" =
      some recDone :=
  terminal_status_stable
    [Op.query pAccept "z1",
     Op.send pAccept 9 (JsVal.vNum 500) "2310000000" "m" none]
    [("z1", recDone)] "z1" recDone (by decide) (by decide) (by decide)

end AkinNevmo
